import Mathlib

/-
Verification of the rbd block-device adapter (src/lib/bdev/rbd/blockdev_rbd.c)
against its natural-language specification.

Shallow embedding conventions:
  * C `size_t` values are modelled as `Nat`, C `int` values as `Int`; the
    explicit C cast `(int)x` of a 64-bit value is modelled by `toInt32`
    (truncation to a signed 32-bit integer).
  * The mutex-guarded singly linked list `req_head` is modelled as a Lean
    `List` whose head is the most recently pushed element, exactly mirroring
    the push `cmd->next = *req_head; *req_head = cmd;`.
  * Stateful functions are modelled as state transformers that additionally
    emit a trace of the external calls and events they perform, in program
    order, so that ordering claims (lock granularity, teardown order,
    resource release) can be stated about the trace.
-/

set_option autoImplicit false

namespace BlockdevRbd

/-- Truncation of an integer to a signed 32-bit value, the meaning of the C
cast `(int)x` applied to a wider value. -/
def toInt32 (n : Int) : Int :=
  let m := n % 4294967296
  if m < 2147483648 then m else m - 4294967296

/-- The `blockdev_rbd_data_direction` enum of the source. -/
inductive RbdDataDirection where
  | read
  | write
  deriving DecidableEq, Repr

/-- The status classification performed by `blockdev_rbd_finish_aiocb`
(lines 183-196): for a read, `(int)cmd->len == status` selects status 0,
anything else -1; for a write, `!status` selects 0, anything else -1.
`len` is the `size_t` field `cmd->len`; `status` is the value of the C `int`
variable holding the backend return value. -/
def blockdev_rbd_finish_aiocb_status (direction : RbdDataDirection) (len : Nat)
    (status : Int) : Int :=
  match direction with
  | RbdDataDirection.read => if toInt32 (Int.ofNat len) = status then 0 else -1
  | RbdDataDirection.write => if status = 0 then 0 else -1

/-- The fields of `struct blockdev_rbd_io` that the completion and polling
logic reads and writes (the completion handle and the channel back-pointer
are opaque handles; the `next` link is the list structure of the inbox). -/
structure BlockdevRbdIo where
  direction : RbdDataDirection
  len : Nat
  status : Int
  deriving DecidableEq, Repr

/-- The completion-inbox part of `struct blockdev_rbd_io_channel`: the
`req_head` list guarded by the channel lock. -/
structure BlockdevRbdIoChannel where
  req_head : List BlockdevRbdIo
  deriving DecidableEq, Repr

/-- `blockdev_rbd_finish_aiocb` (lines 176-209): classifies the backend
return value into `cmd->status`, then pushes the finished request onto the
head of the channel inbox under the channel lock. -/
def blockdev_rbd_finish_aiocb (ch : BlockdevRbdIoChannel) (cmd : BlockdevRbdIo)
    (status : Int) : BlockdevRbdIoChannel :=
  let cmd := { cmd with
    status := blockdev_rbd_finish_aiocb_status cmd.direction cmd.len status }
  { ch with req_head := cmd :: ch.req_head }

/-- The `enum spdk_bdev_io_status` values the adapter reports to the
framework. -/
inductive BdevIoStatus where
  | success
  | failed
  deriving DecidableEq, Repr

/-- Events emitted by one invocation of the poller, in program order. -/
inductive PollEvent where
  | lockAcquire
  | deliver (req : BlockdevRbdIo) (st : BdevIoStatus)
  | lockRelease
  deriving DecidableEq, Repr

/-- The while loop of `blockdev_rbd_io_poll` (lines 359-364): walk the list,
reporting `SPDK_BDEV_IO_STATUS_SUCCESS` when `req->status == 0` and
`SPDK_BDEV_IO_STATUS_FAILED` otherwise. -/
def blockdev_rbd_io_poll_loop : List BlockdevRbdIo → List PollEvent
  | [] => []
  | req :: rest =>
      PollEvent.deliver req
        (if req.status = 0 then BdevIoStatus.success else BdevIoStatus.failed)
        :: blockdev_rbd_io_poll_loop rest

/-- `blockdev_rbd_io_poll` (lines 345-366): takes the lock, detaches the
inbox list (`req = *req_head; *req_head = NULL`), delivers every detached
request to the framework, and only then releases the lock (the
`pthread_mutex_unlock` at line 365 follows the whole while loop). Returns
the updated channel and the event trace. -/
def blockdev_rbd_io_poll (ch : BlockdevRbdIoChannel) :
    BlockdevRbdIoChannel × List PollEvent :=
  ({ ch with req_head := [] },
   PollEvent.lockAcquire
     :: (blockdev_rbd_io_poll_loop ch.req_head ++ [PollEvent.lockRelease]))

/-- The requests delivered to the framework in a poll trace, with the
status reported for each, in delivery order. -/
def deliveredReqs : List PollEvent → List (BlockdevRbdIo × BdevIoStatus)
  | [] => []
  | PollEvent.deliver r s :: rest => (r, s) :: deliveredReqs rest
  | _ :: rest => deliveredReqs rest

/-- Number of framework deliveries in a trace that occur while the channel
lock is held; the second argument is the lock state at the start of the
trace. -/
def deliversWhileLocked : List PollEvent → Bool → Nat
  | [], _ => 0
  | PollEvent.lockAcquire :: rest, _ => deliversWhileLocked rest true
  | PollEvent.lockRelease :: rest, _ => deliversWhileLocked rest false
  | PollEvent.deliver _ _ :: rest, locked =>
      (if locked then 1 else 0) + deliversWhileLocked rest locked

theorem deliveredReqs_poll_loop (l : List BlockdevRbdIo) :
    deliveredReqs (blockdev_rbd_io_poll_loop l ++ [PollEvent.lockRelease]) =
      l.map (fun r =>
        (r, if r.status = 0 then BdevIoStatus.success else BdevIoStatus.failed)) := by
  induction l with
  | nil => rfl
  | cons r rest ih => simp [blockdev_rbd_io_poll_loop, deliveredReqs, ih]

theorem deliversWhileLocked_poll_loop (l : List BlockdevRbdIo) :
    deliversWhileLocked (blockdev_rbd_io_poll_loop l ++ [PollEvent.lockRelease])
      true = l.length := by
  induction l with
  | nil => rfl
  | cons r rest ih =>
      simp [blockdev_rbd_io_poll_loop, deliversWhileLocked, ih, Nat.add_comm]

/-- The classification always finalizes the status to 0 or -1. -/
theorem finish_aiocb_status_finalized (d : RbdDataDirection) (len : Nat)
    (status : Int) :
    blockdev_rbd_finish_aiocb_status d len status = 0 ∨
      blockdev_rbd_finish_aiocb_status d len status = -1 := by
  cases d <;> simp only [blockdev_rbd_finish_aiocb_status] <;> split <;> simp

/-- C1: one poller drain empties the inbox head and delivers every request
that was on it exactly once, in list order, reporting success exactly when
the finalized status of the request is 0 and failed otherwise; a second
drain of the resulting channel delivers nothing; and the completion
callback only ever pushes a request whose status field it has just
finalized (to 0 or -1) onto the inbox, leaving the earlier entries
untouched, so every delivered request carries a finalized status. -/
theorem rbd_poll_delivers_each_finalized_request_exactly_once
    (ch : BlockdevRbdIoChannel) (cmd : BlockdevRbdIo) (status : Int) :
    (blockdev_rbd_io_poll ch).1.req_head = [] ∧
    deliveredReqs (blockdev_rbd_io_poll ch).2 =
      ch.req_head.map (fun r =>
        (r, if r.status = 0 then BdevIoStatus.success else BdevIoStatus.failed)) ∧
    deliveredReqs (blockdev_rbd_io_poll (blockdev_rbd_io_poll ch).1).2 = [] ∧
    (blockdev_rbd_finish_aiocb ch cmd status).req_head =
      { direction := cmd.direction, len := cmd.len,
        status := blockdev_rbd_finish_aiocb_status cmd.direction cmd.len status }
        :: ch.req_head ∧
    (blockdev_rbd_finish_aiocb_status cmd.direction cmd.len status = 0 ∨
      blockdev_rbd_finish_aiocb_status cmd.direction cmd.len status = -1) := by
  refine ⟨rfl, ?_, ?_, rfl, finish_aiocb_status_finalized _ _ _⟩
  · simpa [blockdev_rbd_io_poll, deliveredReqs] using
      deliveredReqs_poll_loop ch.req_head
  · rfl

/-- C2 counterexample: the read classification compares `(int)cmd->len`
with the backend status, so for the length 4294967295 (a valid `size_t`
value whose low 32 bits read back as the signed value -1) and the backend
return value -1 — a negative error code that does not equal the expected
length — the code classifies the read as SUCCESS (status 0), while the
claim requires any mismatch, negative codes included, to be classified
failed. -/
theorem rbd_read_classification_counterexample :
    blockdev_rbd_finish_aiocb_status RbdDataDirection.read 4294967295 (-1) = 0 ∧
    (Int.ofNat 4294967295 ≠ (-1 : Int) ∧ (-1 : Int) < 0) := by
  refine ⟨by decide, by decide, by decide⟩

/-- C2 amended: the completion callback classifies a read as success if and
only if the backend status equals the expected length truncated to a signed
32-bit integer (the C cast `(int)cmd->len`; for lengths below 2^31 this is
the length itself), classifies a write as success if and only if the
backend status is zero, and in every case produces exactly one of the two
outcomes 0 (success) or -1 (failed) — no third, partial-success outcome. -/
theorem rbd_classification_amended (d : RbdDataDirection) (len : Nat)
    (status : Int) :
    (blockdev_rbd_finish_aiocb_status RbdDataDirection.read len status = 0 ↔
      toInt32 (Int.ofNat len) = status) ∧
    (blockdev_rbd_finish_aiocb_status RbdDataDirection.write len status = 0 ↔
      status = 0) ∧
    (blockdev_rbd_finish_aiocb_status d len status = 0 ∨
      blockdev_rbd_finish_aiocb_status d len status = -1) := by
  refine ⟨?_, ?_, finish_aiocb_status_finalized d len status⟩ <;>
    simp only [blockdev_rbd_finish_aiocb_status] <;> split <;> simp_all

/-- C5 counterexample: on a channel whose inbox holds one finished request,
the poller trace contains a framework delivery performed while the channel
lock is held — the unlock in the source (line 365) comes after the whole
delivery loop — contradicting the claim that the framework completion call
is never invoked while the channel lock is held. -/
theorem rbd_poll_delivery_under_lock_counterexample :
    deliversWhileLocked
      (blockdev_rbd_io_poll
        ⟨[⟨RbdDataDirection.read, 4096, 0⟩]⟩).2 false ≠ 0 := by
  decide

/-- C5 amended: the poller acquires the channel lock first, releases it
last, and performs every framework delivery of the drained requests while
holding the lock: the lock is held for the whole walk of the detached list,
not just for the head swap, so a concurrent completion-callback push can be
blocked for the duration of the entire delivery walk. -/
theorem rbd_poll_holds_lock_for_whole_drain (ch : BlockdevRbdIoChannel) :
    (blockdev_rbd_io_poll ch).2.head? = some PollEvent.lockAcquire ∧
    (blockdev_rbd_io_poll ch).2.getLast? = some PollEvent.lockRelease ∧
    deliversWhileLocked (blockdev_rbd_io_poll ch).2 false =
      ch.req_head.length := by
  refine ⟨rfl, ?_, ?_⟩
  · simp only [blockdev_rbd_io_poll, ← List.cons_append]
    exact List.getLast?_concat _
  · simpa [blockdev_rbd_io_poll, deliversWhileLocked] using
      deliversWhileLocked_poll_loop ch.req_head

/-- Return values of the backend async primitives, the environment of one
submission: `rbd_aio_create_completion`, `rbd_aio_read`, `rbd_aio_write`. -/
structure AioEnv where
  createRet : Int
  readRet : Int
  writeRet : Int
  deriving DecidableEq, Repr

/-- Backend calls a submission can perform, recorded in program order. -/
inductive BackendCall where
  | aioCreateCompletion
  | aioRead (offset : Nat) (len : Nat)
  | aioWrite (offset : Nat) (len : Nat)
  | aioRelease
  deriving DecidableEq, Repr

/-- `blockdev_rbd_start_aio` (lines 211-238): creates the backend completion
object, issues the directional async call, and on an issue failure releases
the completion object; returns the C return value together with the trace
of backend calls attempted. -/
def blockdev_rbd_start_aio (env : AioEnv) (direction : RbdDataDirection)
    (offset : Nat) (len : Nat) : Int × List BackendCall :=
  if env.createRet < 0 then (-1, [BackendCall.aioCreateCompletion])
  else
    let ret := match direction with
      | RbdDataDirection.read => env.readRet
      | RbdDataDirection.write => env.writeRet
    let calls := [BackendCall.aioCreateCompletion,
      match direction with
      | RbdDataDirection.read => BackendCall.aioRead offset len
      | RbdDataDirection.write => BackendCall.aioWrite offset len]
    if ret < 0 then (-1, calls ++ [BackendCall.aioRelease]) else (0, calls)

/-- `blockdev_rbd_writev` (lines 266-280): rejects the submission when the
iovec count differs from 1 or the single segment length differs from the
requested length, before any backend call; otherwise starts the async
write. `iovcnt` is the C `int` parameter, `iovLen` the length of the first
iovec segment. -/
def blockdev_rbd_writev (env : AioEnv) (iovcnt : Int) (iovLen : Nat)
    (len : Nat) (offset : Nat) : Int × List BackendCall :=
  if iovcnt ≠ 1 ∨ iovLen ≠ len then (-1, [])
  else blockdev_rbd_start_aio env RbdDataDirection.write offset len

/-- The `spdk_bdev_io_type` values distinguished by the request dispatch. -/
inductive SpdkBdevIoType where
  | read
  | write
  | other
  deriving DecidableEq, Repr

/-- The fields of `struct spdk_bdev_io` the dispatch path reads. -/
structure SpdkBdevIo where
  ioType : SpdkBdevIoType
  iovcnt : Int
  iovLen : Nat
  len : Nat
  offset : Nat
  deriving DecidableEq, Repr

/-- Calls the dispatch path makes back into the framework. -/
inductive FrameworkEvent where
  | getRbuf
  | complete (st : BdevIoStatus)
  deriving DecidableEq, Repr

/-- `_blockdev_rbd_submit_request` (lines 304-323): reads defer to the
rbuf callback, writes go through `blockdev_rbd_writev`, every other type
returns -1. Returns the C return value, the backend calls made and the
framework calls made. -/
def blockdev_rbd_submit_request_inner (env : AioEnv) (io : SpdkBdevIo) :
    Int × List BackendCall × List FrameworkEvent :=
  match io.ioType with
  | SpdkBdevIoType.read => (0, [], [FrameworkEvent.getRbuf])
  | SpdkBdevIoType.write =>
      let r := blockdev_rbd_writev env io.iovcnt io.iovLen io.len io.offset
      (r.1, r.2, [])
  | SpdkBdevIoType.other => (-1, [], [])

/-- `blockdev_rbd_submit_request` (lines 325-330): on a negative return
from the inner dispatch, completes the operation as FAILED synchronously. -/
def blockdev_rbd_submit_request (env : AioEnv) (io : SpdkBdevIo) :
    List BackendCall × List FrameworkEvent :=
  let r := blockdev_rbd_submit_request_inner env io
  if r.1 < 0 then (r.2.1, r.2.2 ++ [FrameworkEvent.complete BdevIoStatus.failed])
  else (r.2.1, r.2.2)

/-- C6: a write submission whose iovec count differs from 1 or whose single
segment length differs from the requested length returns -1 synchronously
with no backend call at all (no completion object created, no async write
issued), and the dispatch wrapper then reports a FAILED completion to the
framework without waiting for any callback. -/
theorem rbd_writev_rejects_bad_iovec (env : AioEnv) (iovcnt : Int)
    (iovLen len offset : Nat) (h : iovcnt ≠ 1 ∨ iovLen ≠ len) :
    blockdev_rbd_writev env iovcnt iovLen len offset = (-1, []) ∧
    blockdev_rbd_submit_request env
        ⟨SpdkBdevIoType.write, iovcnt, iovLen, len, offset⟩ =
      ([], [FrameworkEvent.complete BdevIoStatus.failed]) := by
  have hw : blockdev_rbd_writev env iovcnt iovLen len offset = (-1, []) := by
    simp [blockdev_rbd_writev, h]
  refine ⟨hw, ?_⟩
  simp [blockdev_rbd_submit_request, blockdev_rbd_submit_request_inner, hw]

/-- C6 witness: a two-segment write (iovec count 2) is rejected with no
backend call and a synchronous FAILED completion. -/
theorem rbd_writev_rejects_bad_iovec_witness :
    blockdev_rbd_writev ⟨0, 0, 0⟩ 2 4096 4096 0 = (-1, []) ∧
    blockdev_rbd_submit_request ⟨0, 0, 0⟩
        ⟨SpdkBdevIoType.write, 2, 4096, 4096, 0⟩ =
      ([], [FrameworkEvent.complete BdevIoStatus.failed]) :=
  rbd_writev_rejects_bad_iovec ⟨0, 0, 0⟩ 2 4096 4096 0 (Or.inl (by decide))

/-- The rados/rbd library calls the bootstrap path performs, recorded in
program order. -/
inductive RadosCall where
  | radosCreate
  | confReadFile
  | radosConnect
  | ioctxCreate
  | radosShutdown
  | ioctxDestroy
  | rbdOpen
  | rbdStat
  | rbdClose
  deriving DecidableEq, Repr

/-- Return values of the backend calls made by the bootstrap path, the
environment of one bootstrap attempt. -/
structure RadosEnv where
  createRet : Int
  confReadRet : Int
  connectRet : Int
  ioctxRet : Int
  openRet : Int
  statRet : Int
  deriving DecidableEq, Repr

/-- `blockdev_rados_context_init` (lines 98-132), mirrored branch by
branch, including the `rados_connect` failure branch (lines 117-121) that
logs and shuts the cluster down but does NOT return, so control falls
through to `rados_ioctx_create`. Returns the C return value and the trace
of library calls performed. -/
def blockdev_rados_context_init (env : RadosEnv) : Int × List RadosCall :=
  if env.createRet < 0 then (-1, [RadosCall.radosCreate])
  else if env.confReadRet < 0 then
    (-1, [RadosCall.radosCreate, RadosCall.confReadFile, RadosCall.radosShutdown])
  else
    let t := if env.connectRet < 0 then
        [RadosCall.radosCreate, RadosCall.confReadFile, RadosCall.radosConnect,
          RadosCall.radosShutdown]
      else
        [RadosCall.radosCreate, RadosCall.confReadFile, RadosCall.radosConnect]
    if env.ioctxRet < 0 then
      (-1, t ++ [RadosCall.ioctxCreate, RadosCall.radosShutdown])
    else (0, t ++ [RadosCall.ioctxCreate])

/-- `blockdev_rbd_init` (lines 134-166): bootstraps a rados context, opens
the volume, stats it (closing the image right after the stat call, before
checking its result), and on an open or stat failure destroys the io
context and shuts the cluster down. -/
def blockdev_rbd_init (env : RadosEnv) : Int × List RadosCall :=
  let r := blockdev_rados_context_init env
  if r.1 < 0 then (-1, r.2)
  else if env.openRet < 0 then
    (-1, r.2 ++ [RadosCall.rbdOpen, RadosCall.ioctxDestroy, RadosCall.radosShutdown])
  else if env.statRet < 0 then
    (-1, r.2 ++ [RadosCall.rbdOpen, RadosCall.rbdStat, RadosCall.rbdClose,
      RadosCall.ioctxDestroy, RadosCall.radosShutdown])
  else (0, r.2 ++ [RadosCall.rbdOpen, RadosCall.rbdStat, RadosCall.rbdClose])

/-- C3: when `rados_connect` fails and every other backend call succeeds,
the bootstrap does not stop: `blockdev_rados_context_init` shuts the
cluster session down and then still executes the later step
`rados_ioctx_create` on the already-shut-down session and returns 0
(success), and `blockdev_rbd_init` goes on to open and stat the volume and
also returns 0 — contradicting the claim that a failure releases the
preceding resources and returns an error without executing any later
step. When `rados_ioctx_create` then also fails, the cluster session is
shut down a second time. The missing `return -1` in the connect-failure
branch is a slip: every sibling error branch of the same function returns
-1 immediately after its cleanup. -/
theorem rados_context_init_connect_failure_falls_through :
    blockdev_rados_context_init ⟨0, 0, -1, 0, 0, 0⟩ =
      (0, [RadosCall.radosCreate, RadosCall.confReadFile, RadosCall.radosConnect,
        RadosCall.radosShutdown, RadosCall.ioctxCreate]) ∧
    blockdev_rbd_init ⟨0, 0, -1, 0, 0, 0⟩ =
      (0, [RadosCall.radosCreate, RadosCall.confReadFile, RadosCall.radosConnect,
        RadosCall.radosShutdown, RadosCall.ioctxCreate, RadosCall.rbdOpen,
        RadosCall.rbdStat, RadosCall.rbdClose]) ∧
    blockdev_rados_context_init ⟨0, 0, -1, -1, 0, 0⟩ =
      (-1, [RadosCall.radosCreate, RadosCall.confReadFile, RadosCall.radosConnect,
        RadosCall.radosShutdown, RadosCall.ioctxCreate, RadosCall.radosShutdown]) := by
  refine ⟨by decide, by decide, by decide⟩

/-- Events of one channel teardown, in program order. -/
inductive DestroyEvent where
  | rbdFlush
  | rbdClose
  | ioctxDestroy
  | radosShutdown
  | pollerUnregister
  deriving DecidableEq, Repr

/-- The handle fields of `struct blockdev_rbd_io_channel` tested by the
teardown path (non-NULL modelled as `true`). -/
structure ChannelHandles where
  hasImage : Bool
  hasIoCtx : Bool
  hasCluster : Bool
  deriving DecidableEq, Repr

/-- `blockdev_rbd_exit` (lines 168-173): flush then close the image. -/
def blockdev_rbd_exit : List DestroyEvent :=
  [DestroyEvent.rbdFlush, DestroyEvent.rbdClose]

/-- `blockdev_rbd_destroy_cb` (lines 402-420): closes the image (via
`blockdev_rbd_exit`), destroys the io context, shuts the cluster down —
each step only when the handle is non-NULL — and unregisters the poller
as the very last step. -/
def blockdev_rbd_destroy_cb (ch : ChannelHandles) : List DestroyEvent :=
  (if ch.hasImage then blockdev_rbd_exit else []) ++
  (if ch.hasIoCtx then [DestroyEvent.ioctxDestroy] else []) ++
  (if ch.hasCluster then [DestroyEvent.radosShutdown] else []) ++
  [DestroyEvent.pollerUnregister]

/-- C7 counterexample: on a channel with all three handles live, the
teardown trace starts by flushing and closing the backend connection and
unregisters the poller only at the very end — the claim that the poller is
unregistered first, before the connection is closed, is false. -/
theorem rbd_destroy_counterexample :
    blockdev_rbd_destroy_cb ⟨true, true, true⟩ =
      [DestroyEvent.rbdFlush, DestroyEvent.rbdClose, DestroyEvent.ioctxDestroy,
        DestroyEvent.radosShutdown, DestroyEvent.pollerUnregister] ∧
    ¬ (blockdev_rbd_destroy_cb ⟨true, true, true⟩).indexOf
        DestroyEvent.pollerUnregister <
      (blockdev_rbd_destroy_cb ⟨true, true, true⟩).indexOf DestroyEvent.rbdClose := by
  refine ⟨by decide, by decide⟩

/-- C7 amended: channel destruction closes the Backend Connection first —
flushing outstanding writes and closing the volume, destroying the pool
context, and shutting down the cluster session, each when its handle is
live — and unregisters the poller last: for every channel the teardown
trace ends with the poller unregistration and contains it nowhere else. -/
theorem rbd_destroy_unregisters_poller_last (ch : ChannelHandles) :
    (blockdev_rbd_destroy_cb ch).getLast? = some DestroyEvent.pollerUnregister ∧
    DestroyEvent.pollerUnregister ∉ (blockdev_rbd_destroy_cb ch).dropLast ∧
    (ch.hasImage = true →
      (blockdev_rbd_destroy_cb ch).head? = some DestroyEvent.rbdFlush) := by
  obtain ⟨i, x, c⟩ := ch
  cases i <;> cases x <;> cases c <;> refine ⟨by decide, by decide, by decide⟩

/-- C7 amended witness: the fully live channel is torn down with the poller
unregistration last and the flush first. -/
theorem rbd_destroy_unregisters_poller_last_witness :
    (blockdev_rbd_destroy_cb ⟨true, true, true⟩).getLast? =
      some DestroyEvent.pollerUnregister ∧
    DestroyEvent.pollerUnregister ∉
      (blockdev_rbd_destroy_cb ⟨true, true, true⟩).dropLast ∧
    (true = true →
      (blockdev_rbd_destroy_cb ⟨true, true, true⟩).head? =
        some DestroyEvent.rbdFlush) :=
  rbd_destroy_unregisters_poller_last ⟨true, true, true⟩

/-- The fields of `struct spdk_bdev` filled in by `blockdev_create_rbd_disk`. -/
structure SpdkBdev where
  name : String
  product_name : String
  write_cache : Nat
  blocklen : Nat
  blockcnt : Nat
  deriving DecidableEq, Repr

/-- `blockdev_create_rbd_disk` (lines 437-452): names the disk `Ceph<n>`
from the process-wide counter `blockdev_rbd_count`, increments the counter,
and fills in the geometry: `blocklen = block_size` and
`blockcnt = disk->info.size / disk->disk.blocklen` with no guard against a
zero block size. Takes the current counter and the volume byte size,
returns the disk record and the new counter. -/
def blockdev_create_rbd_disk (count : Nat) (size : Nat) (block_size : Nat) :
    SpdkBdev × Nat :=
  ({ name := "Ceph" ++ toString count, product_name := "Ceph rbd",
     write_cache := 0, blocklen := block_size, blockcnt := size / block_size },
   count + 1)

/-- The block-size handling of `blockdev_rbd_library_init` (lines 538-549):
a missing third config value yields the default 512; a present value is
rejected (`goto cleanup`) when `block_size & 0x1ff` is nonzero and accepted
unchanged otherwise. The argument is the parsed `uint32_t` value of the
config field when present. -/
def library_init_block_size : Option Nat → Option Nat
  | none => some 512
  | some v => if v &&& 0x1ff ≠ 0 then none else some v

/-- `blockdev_rbd_pool_info_init` (lines 472-493): returns the existing
pool record when one with the same name is already on `g_rbd_pools`,
otherwise allocates a new one (failing when the allocation fails, the
`allocOk` flag) and appends it. Returns the updated pool-name list, `none`
on allocation failure. -/
def blockdev_rbd_pool_info_init (allocOk : Bool) (pools : List String)
    (name : String) : Option (List String) :=
  if name ∈ pools then some pools
  else if allocOk then some (pools ++ [name]) else none

/-- One `Ceph<i>` entry of the configuration section, together with the
environment it meets: the three config values (pool name, volume name,
optional parsed block size), the outcomes of the two allocations, the
result of the `blockdev_rbd_init` bootstrap for the entry, and the volume
byte size its stat reports on success. -/
structure CephEntry where
  poolName : Option String
  rbdName : Option String
  blockSizeCfg : Option Nat
  poolAllocOk : Bool
  rbdAllocOk : Bool
  initRet : Int
  volSize : Nat
  deriving DecidableEq, Repr

/-- The process-wide mutable state of the module: the `g_rbd_pools` list
(by pool name), the `g_rbds` list of registered disks, and the
`blockdev_rbd_count` counter. -/
structure GlobalState where
  pools : List String
  rbds : List SpdkBdev
  count : Nat
  deriving DecidableEq, Repr

/-- `blockdev_rbd_library_fini` (lines 454-470): frees every entry of
`g_rbds` and `g_rbd_pools`; the counter is not reset. -/
def blockdev_rbd_library_fini (st : GlobalState) : GlobalState :=
  { pools := [], rbds := [], count := st.count }

/-- The per-entry loop of `blockdev_rbd_library_init` (lines 514-577),
mirrored branch by branch: a missing pool name, a pool-record allocation
failure, a missing volume name, an invalid block size, a disk allocation
failure or a failed bootstrap all take `goto cleanup`, which runs
`blockdev_rbd_library_fini` on the whole accumulated state and returns -1;
a successful entry creates and registers its disk and the loop continues
with the next entry. -/
def blockdev_rbd_library_init_loop : List CephEntry → GlobalState →
    Int × GlobalState
  | [], st => (0, st)
  | e :: rest, st =>
    match e.poolName with
    | none => (-1, blockdev_rbd_library_fini st)
    | some poolName =>
      match blockdev_rbd_pool_info_init e.poolAllocOk st.pools poolName with
      | none => (-1, blockdev_rbd_library_fini st)
      | some pools1 =>
        let st1 : GlobalState := { st with pools := pools1 }
        match e.rbdName with
        | none => (-1, blockdev_rbd_library_fini st1)
        | some _ =>
          match library_init_block_size e.blockSizeCfg with
          | none => (-1, blockdev_rbd_library_fini st1)
          | some block_size =>
            if e.rbdAllocOk = false then (-1, blockdev_rbd_library_fini st1)
            else if e.initRet < 0 then (-1, blockdev_rbd_library_fini st1)
            else
              let d := blockdev_create_rbd_disk st1.count e.volSize block_size
              blockdev_rbd_library_init_loop rest
                { pools := pools1, rbds := st1.rbds ++ [d.1], count := d.2 }

/-- `blockdev_rbd_library_init` (lines 495-583) run on a present `Ceph`
config section, starting from the empty process-wide state. -/
def blockdev_rbd_library_init (cfg : List CephEntry) : Int × GlobalState :=
  blockdev_rbd_library_init_loop cfg { pools := [], rbds := [], count := 0 }

/-- C4 counterexample: with three configured devices whose middle entry
fails its backend bootstrap (`blockdev_rbd_init` returns -1), library init
takes `goto cleanup`: it returns -1 with the global device and pool lists
emptied — the first device, already created and registered, is torn down
and the third entry is never processed (the counter stayed at 1) —
contradicting the claim that previously registered devices remain
registered and subsequent configuration entries are still processed. -/
theorem rbd_library_init_failure_counterexample :
    blockdev_rbd_library_init
      [{ poolName := some "rbd", rbdName := some "vol0", blockSizeCfg := none,
         poolAllocOk := true, rbdAllocOk := true, initRet := 0, volSize := 8192 },
       { poolName := some "rbd", rbdName := some "vol1", blockSizeCfg := none,
         poolAllocOk := true, rbdAllocOk := true, initRet := -1, volSize := 0 },
       { poolName := some "rbd", rbdName := some "vol2", blockSizeCfg := none,
         poolAllocOk := true, rbdAllocOk := true, initRet := 0, volSize := 4096 }] =
      (-1, { pools := [], rbds := [], count := 1 }) := by
  rfl

/-- C4 amended: when the backend bootstrap fails while initializing one
configured device, that device is not registered and no device exists for
it, but initialization does not continue: the entire library init aborts —
the accumulated global state is torn down (every previously registered
device and pool record is freed), the remaining configuration entries are
not processed, and -1 is returned. -/
theorem rbd_library_init_aborts_on_init_failure
    (p v : String) (e : CephEntry) (rest : List CephEntry) (st : GlobalState)
    (hpool : e.poolName = some p) (hrbd : e.rbdName = some v)
    (hbs : (library_init_block_size e.blockSizeCfg).isSome = true)
    (hpa : e.poolAllocOk = true) (hra : e.rbdAllocOk = true)
    (hinit : e.initRet < 0) :
    blockdev_rbd_library_init_loop (e :: rest) st =
      (-1, { pools := [], rbds := [], count := st.count }) := by
  obtain ⟨bs, hbs'⟩ := Option.isSome_iff_exists.mp hbs
  have hpi : blockdev_rbd_pool_info_init e.poolAllocOk st.pools p =
      some (if p ∈ st.pools then st.pools else st.pools ++ [p]) := by
    simp only [blockdev_rbd_pool_info_init, hpa]
    split <;> simp
  simp [blockdev_rbd_library_init_loop, hpool, hrbd, hpi, hbs', hra, hinit,
    blockdev_rbd_library_fini]

/-- C4 amended witness: a single failing entry processed from a state
holding one registered device and one pool empties both lists and returns
-1. -/
theorem rbd_library_init_aborts_on_init_failure_witness :
    blockdev_rbd_library_init_loop
      [{ poolName := some "rbd", rbdName := some "vol1", blockSizeCfg := none,
         poolAllocOk := true, rbdAllocOk := true, initRet := -1, volSize := 0 }]
      { pools := ["rbd"], rbds := [(blockdev_create_rbd_disk 0 8192 512).1],
        count := 1 } =
      (-1, { pools := [], rbds := [], count := 1 }) :=
  rbd_library_init_aborts_on_init_failure "rbd" "vol1" _ [] _ rfl rfl rfl rfl
    rfl (by decide)

/-- C8: a present configured block size is accepted exactly when it is a
multiple of 512 (the mask test `block_size & 0x1ff`); in particular 511 and
1023 are rejected, 512 and 4096 are accepted unchanged, a missing value
defaults to 512, and a device configured with block size 511 is not
created. -/
theorem rbd_block_size_validation :
    (∀ v : Nat, (library_init_block_size (some v)).isSome = true ↔ 512 ∣ v) ∧
    library_init_block_size (some 511) = none ∧
    library_init_block_size (some 1023) = none ∧
    library_init_block_size (some 512) = some 512 ∧
    library_init_block_size (some 4096) = some 4096 ∧
    library_init_block_size none = some 512 ∧
    blockdev_rbd_library_init
      [{ poolName := some "rbd", rbdName := some "vol0",
         blockSizeCfg := some 511, poolAllocOk := true, rbdAllocOk := true,
         initRet := 0, volSize := 4096 }] =
      (-1, { pools := [], rbds := [], count := 0 }) := by
  refine ⟨?_, by decide, by decide, by decide, by decide, rfl, by rfl⟩
  intro v
  simp only [library_init_block_size]
  rw [show (0x1ff : Nat) = 2 ^ 9 - 1 by norm_num,
    Nat.and_pow_two_sub_one_eq_mod]
  split <;> rename_i h <;> simp <;> omega

/-- C9: a device configured with a pool name and a volume name and no block
size is created with block size 512 and block count the volume byte size
divided by 512 (integer division), registered under the name built from the
process-wide counter; and `blockdev_create_rbd_disk` always names the disk
`Ceph<count>` and increments the counter by one. -/
theorem rbd_default_geometry_and_naming (s count sz bs : Nat) :
    blockdev_rbd_library_init
      [{ poolName := some "rbd", rbdName := some "vol0", blockSizeCfg := none,
         poolAllocOk := true, rbdAllocOk := true, initRet := 0, volSize := s }] =
      (0, { pools := ["rbd"],
            rbds := [{ name := "Ceph0", product_name := "Ceph rbd",
                       write_cache := 0, blocklen := 512,
                       blockcnt := s / 512 }],
            count := 1 }) ∧
    (blockdev_create_rbd_disk count sz bs).1.name = "Ceph" ++ toString count ∧
    (blockdev_create_rbd_disk count sz bs).2 = count + 1 := by
  refine ⟨by rfl, rfl, rfl⟩

/-- C10: a configured block size of 0 passes the multiple-of-512 mask test
(`0 & 0x1ff == 0`), and device creation performs the block-count division
with that unguarded value as divisor: the created disk has `blocklen = 0`
and its `blockcnt` is the volume byte size divided by zero (undefined
behaviour in the C source; total division by zero in this model). -/
theorem rbd_block_size_zero_reaches_division_by_zero (count s : Nat) :
    library_init_block_size (some 0) = some 0 ∧
    (blockdev_create_rbd_disk count s 0).1.blocklen = 0 ∧
    (blockdev_create_rbd_disk count s 0).1.blockcnt = s / 0 ∧
    blockdev_rbd_library_init
      [{ poolName := some "rbd", rbdName := some "vol0",
         blockSizeCfg := some 0, poolAllocOk := true, rbdAllocOk := true,
         initRet := 0, volSize := s }] =
      (0, { pools := ["rbd"],
            rbds := [{ name := "Ceph0", product_name := "Ceph rbd",
                       write_cache := 0, blocklen := 0, blockcnt := s / 0 }],
            count := 1 }) := by
  refine ⟨rfl, rfl, rfl, by rfl⟩

end BlockdevRbd
